import Mathlib

/-!
# Verification of the GrabTheSite crawl engine

A shallow embedding of the crawl-relevant parts of the repository:

* `crawler/crawl_site.py` — the `CrawlSite` orchestrator (URL scope checks,
  exclude list, the multi-worker crawl loop, the pages / page-depths /
  static-resources stores and the downloaded-file ceiling);
* `crawler/downloader.py` — `Downloader._download_file`;
* `utils/error_handler.py` — `ErrorHandler.retry` / `_calculate_delay` /
  `_handle_failure`;
* `utils/state_manager.py` — `StateManager.load_state`;
* `utils/timestamp_utils.py` — `should_update`;
* `utils/rate_limiter.py` — `GlobalDelayManager`.

The concurrent crawl is modelled as a small-step transition relation whose
atomic steps are the lock-protected blocks of the Python source; pure
functions are translated directly.
-/

namespace GrabTheSite

/-! ## String helpers

Python's `str.startswith`, `str.endswith`, `str.lower`, `str.lstrip('/')`,
`os.path.basename` and `os.path.join` modelled over `String` via its
character list (structural definitions so they evaluate by `decide`/`rfl`). -/

/-- Python `s.startswith(pre)`. -/
def strStartsWith (s pre : String) : Bool := pre.data.isPrefixOf s.data

/-- Python `s.endswith(suf)`. -/
def strEndsWith (s suf : String) : Bool := suf.data.isSuffixOf s.data

/-- Python `s.lower()` (character-wise). -/
def strLower (s : String) : String := ⟨s.data.map Char.toLower⟩

/-- Python `s.lstrip('/')`: drop all leading slashes. -/
def strLstripSlash (s : String) : String := ⟨s.data.dropWhile (· == '/')⟩

/-- Python `sub in s`: substring occurrence test. -/
def strContains (s sub : String) : Bool :=
  (List.range (s.data.length + 1)).any (fun i => sub.data.isPrefixOf (s.data.drop i))

/-- `os.path.basename`: the component after the last `/`. -/
def osBasename (p : String) : String := ⟨(p.data.reverse.takeWhile (· != '/')).reverse⟩

/-- `os.path.join dir rel` for a relative `rel` (the only way it is called
after `path.lstrip('/')` in the source). -/
def osJoin (dir rel : String) : String :=
  if dir = "" then rel
  else if strEndsWith dir "/" then dir ++ rel
  else dir ++ "/" ++ rel

/-! ## URLs

`urllib.parse.urlparse` results are modelled as their relevant components.
Fragments are always dropped by the source's `_normalize_url` and never
inspected elsewhere, so they are not represented. -/

/-- The components of a parsed URL (`urlparse` output). -/
structure Url where
  scheme : String
  netloc : String
  path : String
  query : String
deriving DecidableEq

/-- The string form of a `Url`, as produced by `CrawlSite._normalize_url`'s
format string `f"{scheme}://{netloc}{path}"` plus `?query` when non-empty. -/
def Url.toUrlString (u : Url) : String :=
  u.scheme ++ "://" ++ u.netloc ++ u.path ++ (if u.query = "" then "" else "?" ++ u.query)

/-- `CrawlSite._normalize_url`: drop the fragment (not represented here),
lower-case the scheme and netloc, keep path and query. -/
def normalizeUrl (u : Url) : Url :=
  { scheme := strLower u.scheme, netloc := strLower u.netloc, path := u.path, query := u.query }

/-- Append a trailing slash when missing (`if not path.endswith('/'): path += '/'`). -/
def ensureTrailingSlash (p : String) : String :=
  if strEndsWith p "/" then p else p ++ "/"

/-! ## Crawl configuration (`CrawlSite.__init__`) -/

/-- The configuration of one `CrawlSite` instance: seed URL, limits and the
raw exclude list. -/
structure Cfg where
  target : Url
  max_depth : Nat
  max_files : Nat
  excludeList : List Url

/-- `self.target_directory`: the seed URL's path with a trailing slash. -/
def Cfg.targetDirectory (cfg : Cfg) : String := ensureTrailingSlash cfg.target.path

/-- `self.processed_exclude_list`: each exclude URL reassembled as
`f"{scheme}://{netloc}{path-with-trailing-slash}"`. -/
def Cfg.processedExcludeList (cfg : Cfg) : List String :=
  cfg.excludeList.map (fun e => e.scheme ++ "://" ++ e.netloc ++ ensureTrailingSlash e.path)

/-- `CrawlSite._is_same_domain`: netloc equality with the seed. -/
def isSameDomain (cfg : Cfg) (u : Url) : Bool := cfg.target.netloc == u.netloc

/-- `CrawlSite._is_in_target_directory`: the URL path, with a trailing slash
appended when missing, starts with the seed's directory prefix. -/
def isInTargetDirectory (cfg : Cfg) (u : Url) : Bool :=
  strStartsWith (ensureTrailingSlash u.path) cfg.targetDirectory

/-- `CrawlSite._is_in_exclude_list`: the URL string starts with some entry of
the processed exclude list. -/
def isInExcludeList (cfg : Cfg) (u : Url) : Bool :=
  cfg.processedExcludeList.any (fun e => strStartsWith u.toUrlString e)

/-! ## The concurrent crawl as a transition system

Shared state of `CrawlSite` (`crawl_site.py`).  `pages` keeps the key set of
the URL → HTML dict (the claims only concern its keys and its size, and a
dict re-assignment to an existing key does not change `len`, matching
`Finset.insert`).  `pageDepths` records every `self.page_depths[url] = depth`
assignment.  `inflight` holds the tasks a worker has dequeued and begun
processing in `_crawl_page`. -/

/-- The parsed content of one fetched page: the absolute asset URLs
(`img`/`link`/`script` after `urljoin`) and the absolute child link URLs
(`a` tags after `urljoin`). -/
structure Page where
  assets : List Url
  links : List Url
deriving DecidableEq

/-- The shared crawl state. -/
structure CrawlState where
  /-- `self.queue` (a `LifoQueue`; the head of the list is its top). -/
  queue : List (Url × Nat)
  /-- `self.visited_urls`. -/
  visited : Finset Url
  /-- tasks currently being processed inside `_crawl_page` by some worker. -/
  inflight : List (Url × Nat × Page)
  /-- key set of `self.pages`. -/
  pages : Finset Url
  /-- entries written to `self.page_depths`. -/
  pageDepths : List (Url × Nat)
  /-- `self.static_resources`. -/
  static : Finset Url
  /-- `self.downloaded_files`. -/
  downloaded : Nat

/-- The initial state of `crawl_site()`: the state file was just deleted by
`__init__`, so `visited_urls` is empty and the seed is enqueued at depth 0
(line `self.queue.put((self.target_url, 0))`). -/
def initState (cfg : Cfg) : CrawlState :=
  { queue := [(cfg.target, 0)], visited := ∅, inflight := [], pages := ∅,
    pageDepths := [], static := ∅, downloaded := 0 }

/-- One atomic step of the multi-worker crawl, for an arbitrary number of
workers.  `web` maps a URL to the parsed content of a successful fetch
(`none` = fetch failed), `needDl` is the result of
`should_update(...) or force_download` for the URL.

Each constructor is one lock-protected block (or failure-free local code) of
`crawl_site.py`:

* `drop` — any of the paths that discard a dequeued task: stop signal,
  already visited, excluded, out of scope, over the file ceiling, depth
  over `max_depth`, freshness says no update, or fetch failure.  Guards of
  those paths only discard more tasks, so they are elided.
* `beginTask` — a worker dequeues a task that passes its pure checks
  (exclude list, target directory, `depth > max_depth`), atomically
  test-and-marks it visited (`_crawl_page` lines 347-354) and fetches it
  successfully.  The lock-separate ceiling pre-checks (worker line 261 and
  `_crawl_page` line 366) only drop more tasks and are elided; the binding
  re-check is the one inside `storePage`.
* `storePage` — the lock-protected block at `_crawl_page` lines 385-395:
  re-check `downloaded_files >= max_files`, then store the page and its
  depth and increment the counter, all under the same lock.
* `staticInsert` — lines 412-422: a normalized asset URL passing
  `_is_same_domain` and `_is_in_target_directory` is added to
  `static_resources` (note: no exclude-list check on this path).
* `enqueueChild` — lines 427-445: a child link passing `_is_same_domain`,
  `_is_in_target_directory` and `depth < max_depth`, not yet visited, is
  enqueued at `depth + 1` while the counter is below the ceiling.
* `finish` — the worker returns from `_crawl_page`. -/
inductive Step (cfg : Cfg) (web : Url → Option Page) (needDl : Url → Bool) :
    CrawlState → CrawlState → Prop
  | drop (s : CrawlState) (u : Url) (d : Nat) (rest : List (Url × Nat)) :
      s.queue = (u, d) :: rest →
      Step cfg web needDl s { s with queue := rest }
  | beginTask (s : CrawlState) (u : Url) (d : Nat) (rest : List (Url × Nat)) (pg : Page) :
      s.queue = (u, d) :: rest →
      u ∉ s.visited →
      isInExcludeList cfg u = false →
      isInTargetDirectory cfg u = true →
      d ≤ cfg.max_depth →
      web u = some pg →
      Step cfg web needDl s
        { s with queue := rest, visited := insert u s.visited,
                 inflight := (u, d, pg) :: s.inflight }
  | storePage (s : CrawlState) (u : Url) (d : Nat) (pg : Page) :
      (u, d, pg) ∈ s.inflight →
      needDl u = true →
      s.downloaded < cfg.max_files →
      Step cfg web needDl s
        { s with pages := insert u s.pages,
                 pageDepths := (u, d) :: s.pageDepths,
                 downloaded := s.downloaded + 1 }
  | staticInsert (s : CrawlState) (u : Url) (d : Nat) (pg : Page) (r : Url) :
      (u, d, pg) ∈ s.inflight →
      r ∈ pg.assets →
      isSameDomain cfg (normalizeUrl r) = true →
      isInTargetDirectory cfg (normalizeUrl r) = true →
      Step cfg web needDl s { s with static := insert (normalizeUrl r) s.static }
  | enqueueChild (s : CrawlState) (u : Url) (d : Nat) (pg : Page) (c : Url) :
      (u, d, pg) ∈ s.inflight →
      c ∈ pg.links →
      isSameDomain cfg c = true →
      isInTargetDirectory cfg c = true →
      d < cfg.max_depth →
      c ∉ s.visited →
      s.downloaded < cfg.max_files →
      Step cfg web needDl s { s with queue := (c, d + 1) :: s.queue }
  | finish (s : CrawlState) (u : Url) (d : Nat) (pg : Page) :
      (u, d, pg) ∈ s.inflight →
      Step cfg web needDl s { s with inflight := s.inflight.erase (u, d, pg) }

/-- A state an interleaved run of the crawl can reach from the initial state. -/
def Reachable (cfg : Cfg) (web : Url → Option Page) (needDl : Url → Bool)
    (s : CrawlState) : Prop :=
  Relation.ReflTransGen (Step cfg web needDl) (initState cfg) s

/-! ## The crawl invariant -/

/-- The inductive invariant of the crawl transition system. -/
structure Inv (cfg : Cfg) (s : CrawlState) : Prop where
  dl_le : s.downloaded ≤ cfg.max_files
  pages_le : s.pages.card ≤ s.downloaded
  queue_depth : ∀ p ∈ s.queue, p.2 ≤ cfg.max_depth
  queue_domain : ∀ p ∈ s.queue, isSameDomain cfg p.1 = true
  inflight_ok : ∀ t ∈ s.inflight, t.2.1 ≤ cfg.max_depth ∧ isSameDomain cfg t.1 = true ∧
      isInTargetDirectory cfg t.1 = true ∧ isInExcludeList cfg t.1 = false
  depths_ok : ∀ p ∈ s.pageDepths, p.2 ≤ cfg.max_depth
  pages_ok : ∀ u ∈ s.pages, isSameDomain cfg u = true ∧ isInTargetDirectory cfg u = true ∧
      isInExcludeList cfg u = false
  static_ok : ∀ r ∈ s.static, isSameDomain cfg r = true ∧ isInTargetDirectory cfg r = true

lemma inv_init (cfg : Cfg) : Inv cfg (initState cfg) := by
  constructor <;> simp [initState, isSameDomain]

lemma inv_step {cfg : Cfg} {web : Url → Option Page} {needDl : Url → Bool}
    {s s' : CrawlState} (hs : Inv cfg s) (h : Step cfg web needDl s s') : Inv cfg s' := by
  obtain ⟨dl_le, pages_le, queue_depth, queue_domain, inflight_ok, depths_ok,
    pages_ok, static_ok⟩ := hs
  cases h with
  | drop u d rest hq =>
      refine ⟨dl_le, pages_le, ?_, ?_, inflight_ok, depths_ok, pages_ok, static_ok⟩ <;>
        intro p hp <;> [exact queue_depth p (by rw [hq]; exact List.mem_cons_of_mem _ hp);
          exact queue_domain p (by rw [hq]; exact List.mem_cons_of_mem _ hp)]
  | beginTask u d rest pg hq hv hexc hdir hd hweb =>
      refine ⟨dl_le, pages_le, ?_, ?_, ?_, depths_ok, pages_ok, static_ok⟩
      · intro p hp
        exact queue_depth p (by rw [hq]; exact List.mem_cons_of_mem _ hp)
      · intro p hp
        exact queue_domain p (by rw [hq]; exact List.mem_cons_of_mem _ hp)
      · intro t ht
        rcases List.mem_cons.mp ht with h1 | h1
        · subst h1
          exact ⟨hd, queue_domain (u, d) (by rw [hq]; exact List.mem_cons_self _ _),
            hdir, hexc⟩
        · exact inflight_ok t h1
  | storePage u d pg hin hdl hlt =>
      have hu := inflight_ok (u, d, pg) hin
      refine ⟨hlt, ?_, queue_depth, queue_domain, inflight_ok, ?_, ?_, static_ok⟩
      · calc (insert u s.pages).card ≤ s.pages.card + 1 := Finset.card_insert_le u s.pages
          _ ≤ s.downloaded + 1 := Nat.add_le_add_right pages_le 1
      · intro p hp
        rcases List.mem_cons.mp hp with h1 | h1
        · subst h1; exact hu.1
        · exact depths_ok p h1
      · intro v hv
        rcases Finset.mem_insert.mp hv with h1 | h1
        · subst h1; exact hu.2
        · exact pages_ok v h1
  | staticInsert u d pg r hin hr hdom hdir =>
      refine ⟨dl_le, pages_le, queue_depth, queue_domain, inflight_ok, depths_ok, pages_ok, ?_⟩
      intro v hv
      rcases Finset.mem_insert.mp hv with h1 | h1
      · subst h1; exact ⟨hdom, hdir⟩
      · exact static_ok v h1
  | enqueueChild u d pg c hin hc hdom hdir hd hv hlt =>
      have hu := inflight_ok (u, d, pg) hin
      refine ⟨dl_le, pages_le, ?_, ?_, inflight_ok, depths_ok, pages_ok, static_ok⟩
      · intro p hp
        rcases List.mem_cons.mp hp with h1 | h1
        · subst h1; exact hd
        · exact queue_depth p h1
      · intro p hp
        rcases List.mem_cons.mp hp with h1 | h1
        · subst h1; exact hdom
        · exact queue_domain p h1
  | finish u d pg hin =>
      exact ⟨dl_le, pages_le, queue_depth, queue_domain,
        fun t ht => inflight_ok t (s.inflight.erase_subset _ ht),
        depths_ok, pages_ok, static_ok⟩

/-- Every reachable state satisfies the invariant. -/
lemma inv_reachable {cfg : Cfg} {web : Url → Option Page} {needDl : Url → Bool}
    {s : CrawlState} (h : Reachable cfg web needDl s) : Inv cfg s := by
  induction h with
  | refl => exact inv_init cfg
  | tail _ hstep ih => exact inv_step ih hstep

/-! ## A concrete crawl run (used for witnesses and the C4 counterexample)

Seed `http://example.com/docs/` with exclude entry
`http://example.com/docs/private`; the seed page references one asset that
lies inside the excluded subtree. -/

def exTarget : Url := ⟨"http", "example.com", "/docs/", ""⟩

def exExclude : Url := ⟨"http", "example.com", "/docs/private", ""⟩

def exCfg : Cfg := ⟨exTarget, 2, 5, [exExclude]⟩

def exAsset : Url := ⟨"http", "example.com", "/docs/private/a.css", ""⟩

def exPage : Page := ⟨[exAsset], []⟩

def exWeb : Url → Option Page := fun u => if u = exTarget then some exPage else none

def exNeedDl : Url → Bool := fun _ => true

/-- State after the seed task is dequeued and begun. -/
def exState1 : CrawlState :=
  { queue := [], visited := {exTarget}, inflight := [(exTarget, 0, exPage)],
    pages := ∅, pageDepths := [], static := ∅, downloaded := 0 }

/-- State after the in-scope (but exclude-listed) asset is collected. -/
def exState2 : CrawlState := { exState1 with static := {normalizeUrl exAsset} }

/-- State after the seed page is stored. -/
def exState3 : CrawlState :=
  { exState2 with pages := {exTarget}, pageDepths := [(exTarget, 0)], downloaded := 1 }

lemma exStep1 : Step exCfg exWeb exNeedDl (initState exCfg) exState1 :=
  Step.beginTask (initState exCfg) exTarget 0 [] exPage rfl (by decide) (by decide)
    (by decide) (by decide) (by decide)

lemma exStep2 : Step exCfg exWeb exNeedDl exState1 exState2 :=
  Step.staticInsert exState1 exTarget 0 exPage exAsset (by decide) (by decide)
    (by decide) (by decide)

lemma exStep3 : Step exCfg exWeb exNeedDl exState2 exState3 :=
  Step.storePage exState2 exTarget 0 exPage (by decide) (by decide) (by decide)

lemma exReach2 : Reachable exCfg exWeb exNeedDl exState2 :=
  (Relation.ReflTransGen.refl.tail exStep1).tail exStep2

lemma exReach3 : Reachable exCfg exWeb exNeedDl exState3 :=
  exReach2.tail exStep3

/-! ## Claim C1 -/

/-- C1: after `CrawlSite.crawl_site()` returns — and already at every
intermediate state of a run, for every configuration of `max_files` and any
number of worker threads (any interleaving of the atomic lock-protected
steps) — the number of entries of the `pages` map is at most `max_files`,
because the ceiling check and the insertion into `pages` happen together
under the shared lock. -/
theorem pages_card_le_max_files (cfg : Cfg) (web : Url → Option Page)
    (needDl : Url → Bool) (s : CrawlState) (h : Reachable cfg web needDl s) :
    s.pages.card ≤ cfg.max_files :=
  le_trans (inv_reachable h).pages_le (inv_reachable h).dl_le

theorem pages_card_le_max_files_witness : exState3.pages.card ≤ exCfg.max_files :=
  pages_card_le_max_files exCfg exWeb exNeedDl exState3 exReach3

/-! ## Claim C2 -/

/-- C2: every URL recorded in `page_depths`, at any point during or after a
crawl, has depth at most `max_depth`: tasks with `depth > max_depth` are
dropped without processing, and children are enqueued at `depth + 1` only
when the current depth is strictly below `max_depth`. -/
theorem page_depths_le_max_depth (cfg : Cfg) (web : Url → Option Page)
    (needDl : Url → Bool) (s : CrawlState) (h : Reachable cfg web needDl s)
    (u : Url) (d : Nat) (hmem : (u, d) ∈ s.pageDepths) : d ≤ cfg.max_depth :=
  (inv_reachable h).depths_ok (u, d) hmem

theorem page_depths_le_max_depth_witness :
    (exTarget, 0) ∈ exState3.pageDepths ∧ 0 ≤ exCfg.max_depth :=
  ⟨by decide,
   page_depths_le_max_depth exCfg exWeb exNeedDl exState3 exReach3 exTarget 0 (by decide)⟩

/-! ## Claim C3 -/

/-- C3: every URL in the `pages` map and every URL in `static_resources` has
the seed's network domain (netloc) and a trailing-slash-normalized path that
starts with the seed URL's directory prefix.  For pages this relies on the
enqueue filter checking the domain (the worker itself re-checks only the
directory prefix), which the transition system models at `enqueueChild`. -/
theorem pages_and_static_in_scope (cfg : Cfg) (web : Url → Option Page)
    (needDl : Url → Bool) (s : CrawlState) (h : Reachable cfg web needDl s) :
    (∀ u ∈ s.pages, isSameDomain cfg u = true ∧ isInTargetDirectory cfg u = true) ∧
    (∀ r ∈ s.static, isSameDomain cfg r = true ∧ isInTargetDirectory cfg r = true) :=
  ⟨fun u hu => ⟨((inv_reachable h).pages_ok u hu).1, ((inv_reachable h).pages_ok u hu).2.1⟩,
   fun r hr => (inv_reachable h).static_ok r hr⟩

theorem pages_and_static_in_scope_witness :
    isSameDomain exCfg exTarget = true ∧ isInTargetDirectory exCfg exTarget = true ∧
    isSameDomain exCfg (normalizeUrl exAsset) = true ∧
    isInTargetDirectory exCfg (normalizeUrl exAsset) = true :=
  ⟨((pages_and_static_in_scope exCfg exWeb exNeedDl exState3 exReach3).1 exTarget
      (by decide)).1,
   ((pages_and_static_in_scope exCfg exWeb exNeedDl exState3 exReach3).1 exTarget
      (by decide)).2,
   ((pages_and_static_in_scope exCfg exWeb exNeedDl exState3 exReach3).2 (normalizeUrl exAsset)
      (by decide)).1,
   ((pages_and_static_in_scope exCfg exWeb exNeedDl exState3 exReach3).2 (normalizeUrl exAsset)
      (by decide)).2⟩

/-! ## Claim C4

The worker checks `_is_in_exclude_list` before crawling a page task, so an
excluded URL never enters `pages`.  The static-resource collection
(`crawl_site.py` lines 412-422) checks only `_is_same_domain` and
`_is_in_target_directory`, so an excluded URL **can** enter
`static_resources`: the claim fails there. -/

/-- C4 (counterexample): the claim "a URL matching an exclude-list prefix
never appears in `static_resources`" is false: in the concrete run above, the
asset `http://example.com/docs/private/a.css` — which starts with the
normalized exclude entry `http://example.com/docs/private/` — is collected
into `static_resources` at a reachable state. -/
theorem excluded_static_resource_reachable :
    Reachable exCfg exWeb exNeedDl exState2 ∧
    normalizeUrl exAsset ∈ exState2.static ∧
    isInExcludeList exCfg (normalizeUrl exAsset) = true :=
  ⟨exReach2, by decide, by decide⟩

/-- C4 (amended): a URL whose string starts with an entry of the normalized
exclude list never appears in the `pages` map; it can however appear in
`static_resources`, whose collection does not consult the exclude list. -/
theorem excluded_never_in_pages (cfg : Cfg) (web : Url → Option Page)
    (needDl : Url → Bool) (s : CrawlState) (h : Reachable cfg web needDl s)
    (u : Url) (hu : u ∈ s.pages) : isInExcludeList cfg u = false :=
  ((inv_reachable h).pages_ok u hu).2.2

theorem excluded_never_in_pages_witness :
    exTarget ∈ exState3.pages ∧ isInExcludeList exCfg exTarget = false :=
  ⟨by decide,
   excluded_never_in_pages exCfg exWeb exNeedDl exState3 exReach3 exTarget (by decide)⟩

/-! ## `utils/error_handler.py` — `ErrorHandler`

The wrapped operation is modelled as `op : Nat → Except PyExc A`, giving the
outcome of its `i`-th invocation; the random jitter of `_calculate_delay` as
`jitter : Nat → ℚ`, giving the factor drawn before the `r`-th retry.  The
wrapper's result is `.ok (some a)` for a success value, `.ok none` for the
`None` sentinel, `.error e` for a propagated exception; the second component
lists the delays passed to `time.sleep`, in order. -/

/-- A Python exception as `_is_retryable_error` inspects it: `response` is
the HTTP status code when the exception carries a *truthy* `response`
attribute (`hasattr(error, 'response') and error.response`), else `none`;
`msg` is `str(error)`. -/
structure PyExc where
  response : Option Nat
  msg : String
deriving DecidableEq

/-- The three values of `fail_strategy`. -/
inductive FailStrategy where
  | log
  | skip
  | raise
deriving DecidableEq

/-- `ErrorHandler.__init__` with its default arguments. -/
structure ErrorHandler where
  retry_count : Nat := 3
  retry_delay : ℚ := 2
  exponential_backoff : Bool := true
  retryable_errors : List Nat := [429, 500, 502, 503, 504]
  fail_strategy : FailStrategy := .log

/-- The transient-network-error substrings of `_is_retryable_error`. -/
def networkErrorSubstrings : List String :=
  ["timeout", "connection error", "connection refused",
   "network is unreachable", "name or service not known"]

/-- `ErrorHandler._is_retryable_error`: status-code membership when the
exception has a truthy response, else a lowercase substring match. -/
def isRetryableError (h : ErrorHandler) (e : PyExc) : Bool :=
  match e.response with
  | some status => h.retryable_errors.contains status
  | none => networkErrorSubstrings.any (fun ne => strContains (strLower e.msg) ne)

/-- The jitter-free part of `_calculate_delay`:
`(2 ** retry_count) * retry_delay` under exponential backoff, else
`retry_delay`. -/
def preJitterDelay (h : ErrorHandler) (retries : Nat) : ℚ :=
  if h.exponential_backoff then (2 ^ retries : ℚ) * h.retry_delay else h.retry_delay

/-- `ErrorHandler._calculate_delay`: the jitter-free delay times the random
jitter factor (drawn from `[0.5, 1.5]` by the source). -/
def calculateDelay (h : ErrorHandler) (retries : Nat) (jit : ℚ) : ℚ :=
  preJitterDelay h retries * jit

/-- `ErrorHandler._handle_failure`: `raise` re-raises, `skip` returns `None`,
anything else (the `log` default) returns `None`. -/
def handleFailure {A : Type} (h : ErrorHandler) (e : PyExc) : Except PyExc (Option A) :=
  match h.fail_strategy with
  | .raise => .error e
  | .skip => .ok none
  | .log => .ok none

/-- The `while retries <= self.retry_count` loop of `ErrorHandler.retry`'s
`wrapper`.  `i` counts invocations of the wrapped function, `retries` is the
loop variable.  The loop always returns within `retry_count + 1` iterations
(each iteration either returns or increments `retries`, and it returns as
soon as `retries` exceeds `retry_count`), so the `fuel` parameter — used only
to make the recursion structural — never reaches 0 when started at
`retry_count + 1`. -/
def retryGo {A : Type} (h : ErrorHandler) (op : Nat → Except PyExc A) (jitter : Nat → ℚ) :
    Nat → Nat → Nat → Except PyExc (Option A) × List ℚ
  | 0, _, _ => (.ok none, [])
  | fuel + 1, i, retries =>
    match op i with
    | .ok a => (.ok (some a), [])
    | .error e =>
      if isRetryableError h e then
        if retries + 1 > h.retry_count then (handleFailure h e, [])
        else
          let d := calculateDelay h (retries + 1) (jitter (retries + 1))
          let rest := retryGo h op jitter fuel (i + 1) (retries + 1)
          (rest.1, d :: rest.2)
      else (handleFailure h e, [])

/-- `ErrorHandler.retry`: run the wrapped operation under the retry loop. -/
def retryRun {A : Type} (h : ErrorHandler) (op : Nat → Except PyExc A)
    (jitter : Nat → ℚ) : Except PyExc (Option A) × List ℚ :=
  retryGo h op jitter (h.retry_count + 1) 0 0

lemma retryGo_spec {A : Type} (h : ErrorHandler) (op : Nat → Except PyExc A)
    (jitter : Nat → ℚ) (errs : Nat → PyExc) (a : A) :
    ∀ (m i retries fuel : Nat),
      (∀ j < m, op (i + j) = .error (errs (i + j)) ∧ isRetryableError h (errs (i + j)) = true) →
      op (i + m) = .ok a →
      retries + m ≤ h.retry_count →
      m + 1 ≤ fuel →
      retryGo h op jitter fuel i retries =
        (.ok (some a),
         (List.range m).map (fun j => calculateDelay h (retries + 1 + j) (jitter (retries + 1 + j)))) := by
  intro m
  induction m with
  | zero =>
      intro i retries fuel hfail hok hle hfuel
      match fuel, hfuel with
      | fuel + 1, _ =>
        rw [Nat.add_zero] at hok
        simp [retryGo, hok]
  | succ m ih =>
      intro i retries fuel hfail hok hle hfuel
      match fuel, hfuel with
      | fuel + 1, hfuel =>
        obtain ⟨he, hr⟩ := hfail 0 (Nat.succ_pos m)
        rw [Nat.add_zero] at he hr
        have hnot : ¬ (retries + 1 > h.retry_count) := by omega
        have hrec := ih (i + 1) (retries + 1) fuel
          (fun j hj => by
            have := hfail (j + 1) (by omega)
            rwa [show i + (j + 1) = i + 1 + j by omega] at this)
          (by rwa [show i + 1 + m = i + (m + 1) by omega])
          (by omega) (by omega)
        simp only [retryGo, he, hr, if_true, hnot, if_false, hrec]
        refine Prod.ext rfl ?_
        simp only [List.range_succ_eq_map, List.map_cons, List.map_map]
        refine congrArg₂ _ (by rw [Nat.add_zero]) ?_
        refine List.map_congr_left (fun j _ => ?_)
        simp only [Function.comp]
        rw [show retries + 1 + 1 + j = retries + 1 + (j + 1) by omega]

lemma retryGo_exhaust {A : Type} (h : ErrorHandler) (op : Nat → Except PyExc A)
    (jitter : Nat → ℚ) (errs : Nat → PyExc) :
    ∀ (m i retries fuel : Nat),
      (∀ j ≤ m, op (i + j) = .error (errs (i + j)) ∧ isRetryableError h (errs (i + j)) = true) →
      retries + m = h.retry_count →
      m + 1 ≤ fuel →
      retryGo h op jitter fuel i retries =
        (handleFailure h (errs (i + m)),
         (List.range m).map (fun j => calculateDelay h (retries + 1 + j) (jitter (retries + 1 + j)))) := by
  intro m
  induction m with
  | zero =>
      intro i retries fuel hfail heq hfuel
      match fuel, hfuel with
      | fuel + 1, _ =>
        obtain ⟨he, hr⟩ := hfail 0 (Nat.le_refl 0)
        rw [Nat.add_zero] at he hr
        have hgt : retries + 1 > h.retry_count := by omega
        simp [retryGo, he, hr, hgt]
  | succ m ih =>
      intro i retries fuel hfail heq hfuel
      match fuel, hfuel with
      | fuel + 1, hfuel =>
        obtain ⟨he, hr⟩ := hfail 0 (Nat.zero_le _)
        rw [Nat.add_zero] at he hr
        have hnot : ¬ (retries + 1 > h.retry_count) := by omega
        have hrec := ih (i + 1) (retries + 1) fuel
          (fun j hj => by
            have := hfail (j + 1) (by omega)
            rwa [show i + (j + 1) = i + 1 + j by omega] at this)
          (by omega) (by omega)
        simp only [retryGo, he, hr, if_true, hnot, if_false, hrec]
        refine Prod.ext ?_ ?_
        · simp only []
          rw [show i + 1 + m = i + (m + 1) by omega]
        · simp only [List.range_succ_eq_map, List.map_cons, List.map_map]
          refine congrArg₂ _ (by rw [Nat.add_zero]) ?_
          refine List.map_congr_left (fun j _ => ?_)
          simp only [Function.comp]
          rw [show retries + 1 + 1 + j = retries + 1 + (j + 1) by omega]

/-! ## Claim C6

The slept delay is `(2 ** retries) * retry_delay * jitter` with
`jitter ∈ [0.5, 1.5]`; consecutive slept delays can therefore *decrease*
(jitter 1.5 then 0.5 gives 6 then 4 for `retry_delay = 2`), so the
monotonicity part of the claim fails.  The jitter-free delays are
non-decreasing. -/

def c6Err : PyExc := ⟨some 503, "Server Error"⟩

def c6Handler : ErrorHandler := {}

def c6Op : Nat → Except PyExc Nat := fun i => if i < 2 then .error c6Err else .ok 42

def c6Jitter : Nat → ℚ := fun r => if r = 1 then 3/2 else 1/2

/-- C6 (counterexample): for the default handler (`retry_delay = 2`,
exponential backoff) and an operation failing twice with a retryable 503
before succeeding, the legitimate jitter draws `1.5` then `0.5` produce the
slept delays `[6, 4]`, which are *not* monotonically non-decreasing (and the
wrapper still returns the success value `42`). -/
theorem retry_sleep_delays_can_decrease :
    retryRun c6Handler c6Op c6Jitter = (.ok (some 42), [6, 4]) ∧
    ((1 : ℚ)/2 ≤ c6Jitter 1 ∧ c6Jitter 1 ≤ 3/2 ∧
     (1 : ℚ)/2 ≤ c6Jitter 2 ∧ c6Jitter 2 ≤ 3/2) ∧
    ¬ ((6 : ℚ) ≤ 4) := by
  refine ⟨?_, by norm_num [c6Jitter], by norm_num⟩
  simp only [retryRun, c6Handler]
  norm_num [retryGo, c6Op, c6Jitter, c6Err, calculateDelay, preJitterDelay,
    isRetryableError, handleFailure]

/-- C6 (amended): if the wrapped operation raises a retryable error on its
first `k` invocations (`k < retry_count`) and then succeeds, the wrapper
returns the success value and sleeps exactly `k` times, before each retry,
with the delay `_calculate_delay` computes for that retry; the *jitter-free*
exponential delays `2^i * retry_delay` are monotonically non-decreasing, but
the slept delays carry the random jitter factor in `[0.5, 1.5]` and need not
be. -/
theorem retry_returns_success_after_k_failures {A : Type} (h : ErrorHandler)
    (op : Nat → Except PyExc A) (jitter : Nat → ℚ) (errs : Nat → PyExc) (a : A) (k : Nat)
    (hfail : ∀ j < k, op j = .error (errs j) ∧ isRetryableError h (errs j) = true)
    (hok : op k = .ok a) (hk : k < h.retry_count) (hdelay : 0 ≤ h.retry_delay) :
    retryRun h op jitter =
      (.ok (some a),
       (List.range k).map (fun j => calculateDelay h (1 + j) (jitter (1 + j)))) ∧
    (retryRun h op jitter).2.length = k ∧
    ∀ j, preJitterDelay h (j + 1) ≤ preJitterDelay h (j + 2) := by
  have hmain := retryGo_spec h op jitter errs a k 0 0 (h.retry_count + 1)
    (fun j hj => by simpa using hfail j hj) (by simpa using hok) (by omega) (by omega)
  have hrun : retryRun h op jitter =
      (.ok (some a),
       (List.range k).map (fun j => calculateDelay h (1 + j) (jitter (1 + j)))) := by
    rw [retryRun, hmain]
  refine ⟨hrun, by rw [hrun]; simp, fun j => ?_⟩
  by_cases hexp : h.exponential_backoff
  · simp only [preJitterDelay, hexp, if_true]
    refine mul_le_mul_of_nonneg_right (pow_le_pow_right₀ one_le_two (by omega)) hdelay
  · simp [preJitterDelay, hexp]

theorem retry_returns_success_after_k_failures_witness :
    retryRun c6Handler c6Op c6Jitter =
      (.ok (some 42),
       (List.range 2).map (fun j => calculateDelay c6Handler (1 + j) (c6Jitter (1 + j)))) :=
  (retry_returns_success_after_k_failures c6Handler c6Op c6Jitter (fun _ => c6Err) 42 2
    (by intro j hj; interval_cases j <;> exact ⟨rfl, rfl⟩)
    rfl (by decide) (by norm_num [c6Handler])).1

/-! ## Claim C7 -/

/-- C7: when retries are exhausted (every invocation up to `retry_count`
raises a retryable error), or immediately upon a non-retryable error, the
wrapper applies `fail_strategy`: `raise` re-raises the exception of the
failing invocation to the caller, while `skip` and the `log` default return
the `None` sentinel instead of raising; in the non-retryable case this
happens with no sleeps and no further invocations. -/
theorem fail_strategy_applied {A : Type} (h : ErrorHandler) (op opN : Nat → Except PyExc A)
    (jitter : Nat → ℚ) (errs : Nat → PyExc) (e : PyExc)
    (hfail : ∀ j ≤ h.retry_count, op j = .error (errs j) ∧ isRetryableError h (errs j) = true)
    (hN : opN 0 = .error e) (hNr : isRetryableError h e = false) :
    ((h.fail_strategy = .raise → (retryRun h op jitter).1 = .error (errs h.retry_count)) ∧
     (h.fail_strategy = .skip → (retryRun h op jitter).1 = .ok none) ∧
     (h.fail_strategy = .log → (retryRun h op jitter).1 = .ok none)) ∧
    ((h.fail_strategy = .raise → retryRun h opN jitter = (.error e, [])) ∧
     (h.fail_strategy = .skip → retryRun h opN jitter = (.ok none, [])) ∧
     (h.fail_strategy = .log → retryRun h opN jitter = (.ok none, []))) := by
  have hmain := retryGo_exhaust h op jitter errs h.retry_count 0 0 (h.retry_count + 1)
    (fun j hj => by simpa using hfail j hj) (by omega) (by omega)
  have h1 : (retryRun h op jitter).1 = handleFailure h (errs h.retry_count) := by
    rw [retryRun, hmain]
    simp [Nat.zero_add]
  have h2 : retryRun h opN jitter = (handleFailure h e, []) := by
    rw [retryRun]
    simp [retryGo, hN, hNr]
  constructor
  · refine ⟨fun hs => ?_, fun hs => ?_, fun hs => ?_⟩ <;> rw [h1, handleFailure, hs]
  · refine ⟨fun hs => ?_, fun hs => ?_, fun hs => ?_⟩ <;> rw [h2, handleFailure, hs]

def c7ErrN : PyExc := ⟨none, "404 Client Error: Not Found"⟩

def c7OpFail : Nat → Except PyExc Nat := fun _ => .error c6Err

def c7OpN : Nat → Except PyExc Nat := fun _ => .error c7ErrN

def c7Raise : ErrorHandler := { fail_strategy := .raise }

theorem fail_strategy_applied_witness :
    (retryRun c7Raise c7OpFail c6Jitter).1 = .error c6Err ∧
    (retryRun c6Handler c7OpFail c6Jitter).1 = .ok none ∧
    retryRun c7Raise c7OpN c6Jitter = (.error c7ErrN, []) ∧
    retryRun c6Handler c7OpN c6Jitter = (.ok none, []) :=
  ⟨(fail_strategy_applied c7Raise c7OpFail c7OpN c6Jitter (fun _ => c6Err) c7ErrN
      (fun _ _ => ⟨rfl, rfl⟩) rfl rfl).1.1 rfl,
   (fail_strategy_applied c6Handler c7OpFail c7OpN c6Jitter (fun _ => c6Err) c7ErrN
      (fun _ _ => ⟨rfl, rfl⟩) rfl rfl).1.2.2 rfl,
   (fail_strategy_applied c7Raise c7OpFail c7OpN c6Jitter (fun _ => c6Err) c7ErrN
      (fun _ _ => ⟨rfl, rfl⟩) rfl rfl).2.1 rfl,
   (fail_strategy_applied c6Handler c7OpFail c7OpN c6Jitter (fun _ => c6Err) c7ErrN
      (fun _ _ => ⟨rfl, rfl⟩) rfl rfl).2.2.2 rfl⟩

/-! ## `utils/timestamp_utils.py` and `crawler/downloader.py`

Timestamps are floats in Python; only their zero tests and ordering matter
here, so they are modelled as `Nat`. -/

/-- `timestamp_utils.should_update`: update when the remote timestamp is
unavailable (0), the local file is absent (0), or the remote copy is newer. -/
def shouldUpdate (remote localTs : Nat) : Bool :=
  if remote == 0 then true
  else if localTs == 0 then true
  else decide (remote > localTs)

/-- The observable outcome of one `Downloader._download_file` call:
the returned path (`none` = Python `None`), whether the body `GET` was
issued, and whether the call returned through the State-Store dedup skip
(`downloader.py` lines 115-118). -/
structure DlResult where
  result : Option String
  didGet : Bool
  skippedDedup : Bool
deriving DecidableEq

/-- `Downloader._download_file` for one URL.  `sm` is the state manager's
`downloaded_files` set (`none` when `self.state_manager is None`), `fs` maps
existing files to their mtimes (`get_file_timestamp` yields 0 for a missing
file), `remoteTs` is the remote `Last-Modified` from the HEAD request (0 when
unavailable).  The final branch performs the rate-governed `GET` and streams
the body to disk; a network failure there is handled by the `@retry()`
decorator around the whole function and is irrelevant to the skip logic, so
that branch is modelled as the successful download. -/
def downloadFile (outputDir : String) (sm : Option (List String))
    (fs : List (String × Nat)) (remoteTs : Nat) (url : Url) : DlResult :=
  let path := url.path
  let filename := osBasename path
  if filename = "" then ⟨none, false, false⟩
  else
    let file_path := osJoin outputDir (strLstripSlash path)
    if (sm.map (fun l => l.contains file_path)).getD false then
      ⟨some file_path, false, true⟩
    else
      let local_timestamp := (fs.lookup file_path).getD 0
      if shouldUpdate remoteTs local_timestamp = false then ⟨some file_path, false, false⟩
      else ⟨some file_path, true, false⟩

/-! ## Claim C8

The dedup skip tests only `is_file_downloaded(file_path)` — membership of the
path in the recorded set (`state_manager.py` lines 140-149).  No disk
existence check is performed, so the "and that file still exists on disk"
part of the claim is false. -/

def c8Url : Url := ⟨"http", "example.com", "/docs/a.css", ""⟩

def c8Path : String := "out/docs/a.css"

/-- C8 (counterexample): with the path recorded as downloaded but the file
*absent from disk* (`get_file_timestamp` would yield 0), `_download_file`
still skips and returns the recorded path without a `GET` — refuting "skips
... exactly when the State Store records the path ... and that file still
exists on disk". -/
theorem download_skips_despite_missing_file :
    downloadFile "out" (some [c8Path]) [] 5 c8Url = ⟨some c8Path, false, true⟩ ∧
    (([] : List (String × Nat)).lookup c8Path).isSome = false :=
  ⟨rfl, rfl⟩

/-- C8 (amended): when a state manager is present and the resource has a
non-empty basename, `_download_file` takes the State-Store dedup skip exactly
when the computed target path is in the recorded `downloaded_files` set —
*regardless of whether the file still exists on disk* — and in that case it
returns the recorded path without issuing a network `GET` for the resource
body. -/
theorem download_dedup_skip (outputDir : String) (l : List String)
    (fs : List (String × Nat)) (remoteTs : Nat) (url : Url)
    (hfn : ¬ osBasename url.path = "") :
    (downloadFile outputDir (some l) fs remoteTs url).skippedDedup =
      l.contains (osJoin outputDir (strLstripSlash url.path)) ∧
    (l.contains (osJoin outputDir (strLstripSlash url.path)) = true →
      downloadFile outputDir (some l) fs remoteTs url =
        ⟨some (osJoin outputDir (strLstripSlash url.path)), false, true⟩) := by
  constructor
  · by_cases hx : osJoin outputDir (strLstripSlash url.path) ∈ l
    · simp [downloadFile, hfn, hx]
    · simp [downloadFile, hfn, hx]
      split <;> rfl
  · intro hc
    have hx : osJoin outputDir (strLstripSlash url.path) ∈ l := by simpa using hc
    simp [downloadFile, hfn, hx]

theorem download_dedup_skip_witness :
    ¬ osBasename c8Url.path = "" ∧
    (downloadFile "out" (some [c8Path]) [] 5 c8Url).skippedDedup =
      ([c8Path].contains (osJoin "out" (strLstripSlash c8Url.path))) :=
  ⟨by decide, (download_dedup_skip "out" [c8Path] [] 5 c8Url (by decide)).1⟩

/-! ## `utils/state_manager.py` — `StateManager.load_state` -/

/-- A JSON value, as `json.load` can produce it. -/
inductive Json where
  | null
  | bool (b : Bool)
  | num (n : Int)
  | str (s : String)
  | arr (elems : List Json)
  | obj (fields : List (String × Json))

/-- A Python exception raised by the conversion code in `load_state` — not in
the `except (IOError, OSError, json.JSONDecodeError)` clause, hence
propagated to the caller. -/
inductive PyErr where
  | typeError
  | keyError
deriving DecidableEq

/-- Python `set(v)`: iterate `v`.  Lists yield their elements, strings their
characters, dicts their keys; other values raise `TypeError` ("not
iterable").  (The Python set also deduplicates; no claim depends on that.) -/
def pySetElems : Json → Except PyErr (List Json)
  | .arr l => .ok l
  | .str s => .ok (s.data.map (fun c => .str ⟨[c]⟩))
  | .obj l => .ok (l.map (fun kv => .str kv.1))
  | _ => .error .typeError

/-- Python `key in j` on the loaded document: dict key test, list membership,
substring test on strings; `in` on other values raises `TypeError`. -/
def pyContainsKey (j : Json) (key : String) : Except PyErr Bool :=
  match j with
  | .obj l => .ok (l.any (fun kv => kv.1 == key))
  | .arr l => .ok (l.any (fun e => match e with | .str t => t == key | _ => false))
  | .str s => .ok (strContains s key)
  | _ => .error .typeError

/-- Python `j[key]` with a string key (the source reaches it only after a
successful `in` test): dict lookup; anything else raises `TypeError`. -/
def pyIndex (j : Json) (key : String) : Except PyErr Json :=
  match j with
  | .obj l =>
    match l.lookup key with
    | some v => .ok v
    | none => .error .keyError
  | _ => .error .typeError

/-- The in-memory `self.state` of a `StateManager` (the `last_save_time`
field is never touched by `load_state` and is omitted). -/
structure SMState where
  visited_urls : List Json
  downloaded_files : List Json
  start_time : Json
  stats : Json

/-- The fresh state built by `StateManager.__init__` before `load_state`
(`t0` stands for the `time.time()` value). -/
def defaultSMState (t0 : Json) : SMState :=
  { visited_urls := [], downloaded_files := [],
    start_time := t0,
    stats := .obj [("total_urls", .num 0), ("downloaded_files", .num 0),
                   ("failed_urls", .num 0)] }

/-- `StateManager.load_state`.  `file` is the state file's content: `none`
when the file does not exist, `some (.error ())` when opening or decoding
raises one of the *caught* exceptions (`IOError`, `OSError`,
`json.JSONDecodeError`), `some (.ok j)` a decoded document `j`.  The result
is `.error _` when an uncaught exception (e.g. `TypeError` from `set(...)`)
propagates out of `load_state`, else `.ok (return value, new state)`. -/
def loadState (file : Option (Except Unit Json)) (st : SMState) :
    Except PyErr (Bool × SMState) :=
  match file with
  | none => .ok (false, st)
  | some (.error _) => .ok (false, st)
  | some (.ok j) => do
    let hasV ← pyContainsKey j "visited_urls"
    let st ←
      if hasV then do
        let v ← pyIndex j "visited_urls"
        let elems ← pySetElems v
        pure { st with visited_urls := elems }
      else pure st
    let hasD ← pyContainsKey j "downloaded_files"
    let st ←
      if hasD then do
        let v ← pyIndex j "downloaded_files"
        let elems ← pySetElems v
        pure { st with downloaded_files := elems }
      else pure st
    let hasS ← pyContainsKey j "start_time"
    let st ←
      if hasS then do
        let v ← pyIndex j "start_time"
        pure { st with start_time := v }
      else pure st
    let hasT ← pyContainsKey j "stats"
    let st ←
      if hasT then do
        let v ← pyIndex j "stats"
        pure { st with stats := v }
      else pure st
    pure (true, st)

/-! ## Claim C9

`load_state` catches only `IOError`, `OSError` and `json.JSONDecodeError`.
A state file that is *valid JSON* but whose set-typed field is not iterable
(e.g. `{"visited_urls": 5}`) raises `TypeError` inside
`set(loaded_state["visited_urls"])`, which propagates out of `load_state` —
the claim's "for every malformed input" fails. -/

def c9BadDoc : Json := .obj [("visited_urls", .num 5)]

/-- C9 (counterexample): on the valid-JSON document `{"visited_urls": 5}` —
whose set-typed field is not array-encoded — `load_state` does *not* treat
the file as absent: it raises an uncaught `TypeError` instead of returning
`False`. -/
theorem load_state_raises_on_non_iterable_field :
    loadState (some (.ok c9BadDoc)) (defaultSMState (.num 0)) = .error .typeError := rfl

/-- C9 (amended): for a missing state file and for every unreadable or
non-JSON-decodable one (`IOError`/`OSError`/`json.JSONDecodeError` are
caught), `load_state` returns `False` without raising and leaves the
in-memory state exactly as it was (its empty defaults); but a document that
is valid JSON whose set-typed field is not iterable raises an uncaught
`TypeError`. -/
theorem load_state_absent_or_undecodable (st : SMState) :
    loadState none st = .ok (false, st) ∧
    loadState (some (.error ())) st = .ok (false, st) :=
  ⟨rfl, rfl⟩

/-! ## Claim C5

`CrawlSite.__init__` (lines 104-111) **deletes** the state file before
constructing the `StateManager`, so `load_state` always sees a missing file:
the persisted visited-URL set is never loaded and the seed is re-enqueued. -/

/-- The state file path (`crawl_site.py` line 99; made absolute at runtime —
the path string itself is irrelevant to the claims). -/
def stateFileName : String := "logs/grabthesite.json"

/-- The filesystem as seen through `open` + `json.load`: a path ↦ content
association (`.error ()` marks a file whose read or decode raises one of the
exceptions `load_state` catches). -/
def FileSys : Type := List (String × Except Unit Json)

/-- Reading a file: `none` when absent. -/
def readFile (fs : FileSys) (p : String) : Option (Except Unit Json) := fs.lookup p

/-- `os.remove` (the success path of the `try` at `__init__` lines 106-111). -/
def removeFile (fs : FileSys) (p : String) : FileSys :=
  fs.filter (fun kv => !(kv.1 == p))

/-- The state-relevant part of `CrawlSite.__init__` followed by the
seed-enqueue decision at the start of `crawl_site()` (lines 157-162):
delete the state file, construct the `StateManager` (fresh defaults, then
`load_state` on the now-missing file), merge the loaded visited set unless
`force_download`, then enqueue the seed iff it is not in `visited_urls`.
Returns the filesystem after deletion, the initial `visited_urls` (as loaded
JSON values) and the initial queue. -/
def crawlSiteInit (fs : FileSys) (targetUrl : String) (force_download : Bool)
    (t0 : Json) : Except PyErr (FileSys × List Json × List (String × Nat)) := do
  let fs1 := removeFile fs stateFileName
  let (_, sm) ← loadState (readFile fs1 stateFileName) (defaultSMState t0)
  let visited := if force_download then [] else sm.visited_urls
  let queue :=
    if visited.any (fun j => match j with | .str t => t == targetUrl | _ => false)
    then [] else [(targetUrl, 0)]
  pure (fs1, visited, queue)

lemma readFile_removeFile (fs : FileSys) (p : String) :
    readFile (removeFile fs p) p = none := by
  induction fs with
  | nil => rfl
  | cons kv t ih =>
      simp only [readFile, removeFile, List.filter_cons] at ih ⊢
      by_cases h : kv.1 = p
      · simpa [h] using ih
      · have hb : (kv.1 == p) = false := beq_eq_false_iff_ne.mpr h
        have hb2 : (p == kv.1) = false := beq_eq_false_iff_ne.mpr (fun hh => h hh.symm)
        simp only [hb, Bool.not_false, if_true, List.lookup, hb2]
        exact ih

def c5Seed : String := "http://example.com/docs/"

def c5Stats : Json :=
  .obj [("total_urls", .num 1), ("downloaded_files", .num 1), ("failed_urls", .num 0)]

/-- A well-formed persisted state recording the seed as visited — what a
completed first run saves. -/
def c5StateDoc : Json :=
  .obj [("visited_urls", .arr [.str c5Seed]),
        ("downloaded_files", .arr [.str "out/docs/index.html"]),
        ("start_time", .num 100),
        ("last_save_time", .num 200),
        ("stats", c5Stats)]

def c5Fs : FileSys := [(stateFileName, .ok c5StateDoc)]

/-- C5 (counterexample): with the first run's state file retained on disk and
`force_download = false`, the second run's startup does **not** load the
persisted visited-URL set: `__init__` deletes the state file first, so
`visited_urls` comes up empty and the seed is re-enqueued at depth 0 — the
run re-processes the seed instead of visiting zero new pages.  The second
conjunct shows the retained file itself was perfectly loadable (had it not
been deleted, `load_state` would have returned the seed as visited). -/
theorem second_run_does_not_load_state :
    crawlSiteInit c5Fs c5Seed false (.num 0) = .ok ([], [], [(c5Seed, 0)]) ∧
    loadState (some (.ok c5StateDoc)) (defaultSMState (.num 0)) =
      .ok (true, { visited_urls := [.str c5Seed],
                   downloaded_files := [.str "out/docs/index.html"],
                   start_time := .num 100, stats := c5Stats }) :=
  ⟨rfl, rfl⟩

/-- C5 (amended): `CrawlSite.__init__` unconditionally deletes any existing
state file before the `StateManager` loads, so for *every* prior filesystem
state a run with `force_download = false` starts with an empty visited set
and the seed enqueued at depth 0: a second run never loads the persisted
visited-URL set and re-processes pages from scratch rather than visiting
zero new pages. -/
theorem second_run_starts_from_scratch (fs : FileSys) (targetUrl : String) (t0 : Json) :
    crawlSiteInit fs targetUrl false t0 =
      .ok (removeFile fs stateFileName, [], [(targetUrl, 0)]) := by
  rw [crawlSiteInit, readFile_removeFile]
  rfl

/-! ## `utils/rate_limiter.py` — `GlobalDelayManager` -/

/-- One `GlobalDelayManager` instance: `id` stands for its Python object
identity, and `delay` / `random_delay` are the configuration stored by the
first `__init__` to run on it. -/
structure GDM where
  id : Nat
  delay : ℚ
  random_delay : Bool
deriving DecidableEq

/-- The class-level `_instance` attribute. -/
def GDMClass : Type := Option GDM

/-- One `GlobalDelayManager(delay, random_delay)` construction: `__new__`
returns the stored instance when one exists (allocating a fresh one —
identity `fresh` — otherwise), then `__init__` returns immediately when the
instance is already initialized, silently discarding the `delay` and
`random_delay` arguments; on a fresh instance it stores them.  Returns the
constructed instance and the class state after the call.  (The
double-checked locking in `__new__` is the single-threaded path; claims here
are about the sequential construction protocol.) -/
def constructGDM (cls : GDMClass) (fresh : Nat) (delay : ℚ) (random_delay : Bool) :
    GDM × GDMClass :=
  match cls with
  | some inst => (inst, some inst)
  | none =>
    let inst : GDM := ⟨fresh, delay, random_delay⟩
    (inst, some inst)

/-- `GlobalDelayManager.reset_instance`: clear the class-level instance. -/
def resetGDM (_cls : GDMClass) : GDMClass := none

/-- The module-import-time construction
`default_delay_manager = GlobalDelayManager()` (`rate_limiter.py` line 133),
with the signature defaults `delay = 1.0`, `random_delay = True`, starting
from an unset `_instance`. -/
def importGDM : GDM × GDMClass := constructGDM none 0 1 true

/-- A sequence of later constructions (one per call site, e.g.
`GlobalDelayManager(DELAY, RANDOM_DELAY)` in `Downloader.__init__`), each
with a fresh identity in case an allocation were to happen; returns the final
class state and the instances the call sites received. -/
def runConstructGDM (cls : GDMClass) : List (Nat × ℚ × Bool) → GDMClass × List GDM
  | [] => (cls, [])
  | (fresh, d, r) :: rest =>
    let c := constructGDM cls fresh d r
    let res := runConstructGDM c.2 rest
    (res.1, c.1 :: res.2)

/-! ## Claim C10 -/

/-- C10: `GlobalDelayManager` is a process-wide singleton.  Starting from the
state after module import (where `default_delay_manager = GlobalDelayManager()`
ran with `delay = 1.0`, `random_delay = True`), every later construction —
whatever `delay`/`random_delay` arguments its call site passes — returns that
same import-time instance with the import-time configuration and leaves the
class state unchanged, so all call sites share the first construction's
delay configuration; only after `reset_instance()` does a construction
install a fresh instance carrying its own arguments. -/
theorem global_delay_manager_singleton :
    importGDM.1 = ⟨0, 1, true⟩ ∧
    (∀ args : List (Nat × ℚ × Bool),
      runConstructGDM importGDM.2 args = (importGDM.2, args.map (fun _ => importGDM.1))) ∧
    (∀ fresh d r, constructGDM (resetGDM importGDM.2) fresh d r =
      (⟨fresh, d, r⟩, some ⟨fresh, d, r⟩)) := by
  refine ⟨rfl, fun args => ?_, fun fresh d r => rfl⟩
  induction args with
  | nil => rfl
  | cons a rest ih =>
      obtain ⟨f, d, r⟩ := a
      have hc : constructGDM importGDM.2 f d r = (importGDM.1, importGDM.2) := rfl
      simp only [runConstructGDM, hc, ih, List.map_cons]

end GrabTheSite
